import Mathlib

/-!
Verification of the plans router (`src/modules/plans/router.ts`) of the
assessment-tssql repository: plan listing, admin-gated plan create/update,
and the upgrade-price computation `plans.getUpgrade`.

The storage collaborator is modelled as an explicit record of tables; each
drizzle query of a handler becomes a state-passing primitive returning the
(possibly updated) storage next to its result.  JS numbers holding currency
are modelled as rationals and dates as integer millisecond timestamps.  The
two `new Date()` calls inside one `getUpgrade` request are modelled as a
single instant `now`, as in the specification.  `Math.round` applied to a
rational value is Mathlib's `round` (round half towards positive infinity),
which agrees with the JS semantics at every rational.
-/

namespace PlansRouter

/-- A row of the `plans` table: id, name, prices, timestamps (ms). -/
structure Plan where
  id : Nat
  name : String
  monthlyPrice : ℚ
  yearlyPrice : ℚ
  createdAt : Option Int
  updatedAt : Option Int
  deriving DecidableEq

/-- A row of the `teams` table (only the fields the router reads). -/
structure Team where
  id : Nat
  userId : Nat
  name : String
  deriving DecidableEq

/-- A row of the `subscriptions` table. -/
structure Subscription where
  id : Nat
  teamId : Nat
  planId : Nat
  subscriptionType : String
  createdAt : Int
  deriving DecidableEq

/-- A row of the `subscriptionActivations` table. -/
structure SubscriptionActivation where
  subscriptionId : Nat
  activationDate : Int
  lastActiveDate : Int
  deriving DecidableEq

/-- A row of the `users` table (only the fields the router reads). -/
structure User where
  id : Nat
  isAdmin : Bool
  deriving DecidableEq

/-- The storage state: one list per table, in storage order, plus the
serial counter the database uses for fresh plan ids. -/
structure Db where
  plans : List Plan
  teams : List Team
  subscriptions : List Subscription
  subscriptionActivations : List SubscriptionActivation
  users : List User
  nextPlanId : Nat
  deriving DecidableEq

/-- Error codes of `trpcError` used by this router. -/
inductive ErrCode where
  | BAD_REQUEST
  | FORBIDDEN
  | NOT_FOUND
  deriving DecidableEq

/-- Model of `new trpcError({ code, message })`. -/
structure TrpcError where
  code : ErrCode
  message : String
  deriving DecidableEq

/-- Model of `db.query.teams.findFirst({ where: eq(teams.id, teamId) })`. -/
def findTeamById (db : Db) (teamId : Nat) : Option Team × Db :=
  (db.teams.find? (fun t => t.id == teamId), db)

/-- Model of `db.query.subscriptions.findFirst` with
`eq(subscriptions.teamId, teamId)`. -/
def findSubscriptionByTeamId (db : Db) (teamId : Nat) : Option Subscription × Db :=
  (db.subscriptions.find? (fun s => s.teamId == teamId), db)

/-- Model of `db.query.subscriptionActivations.findFirst` with
`and(eq(subscriptionId, subId), gte(lastActiveDate, new Date()))`. -/
def findActiveActivation (db : Db) (subId : Nat) (now : Int) :
    Option SubscriptionActivation × Db :=
  (db.subscriptionActivations.find?
      (fun a => a.subscriptionId == subId && now ≤ a.lastActiveDate), db)

/-- Model of `db.query.plans.findFirst({ where: eq(plans.id, planId) })`. -/
def findPlanById (db : Db) (planId : Nat) : Option Plan × Db :=
  (db.plans.find? (fun p => p.id == planId), db)

/-- Model of `db.query.users.findFirst({ where: eq(users.id, userId) })`. -/
def findUserById (db : Db) (userId : Nat) : Option User × Db :=
  (db.users.find? (fun u => u.id == userId), db)

/-- Model of `db.insert(schema.plans).values({...})`: appends a fresh row in
storage order, the id coming from the serial counter. -/
def insertPlan (db : Db) (name : String) (monthlyPrice yearlyPrice : ℚ)
    (createdAt : Int) : Unit × Db :=
  ((), { db with
          plans := db.plans ++
            [{ id := db.nextPlanId, name := name, monthlyPrice := monthlyPrice,
               yearlyPrice := yearlyPrice, createdAt := some createdAt,
               updatedAt := none }],
          nextPlanId := db.nextPlanId + 1 })

/-- Model of `db.update(schema.plans).set({...}).where(eq(plans.id, id))`:
rewrites every row matched by id, leaving the rest untouched. -/
def updatePlanById (db : Db) (planId : Nat) (name : String)
    (monthlyPrice yearlyPrice : ℚ) (updatedAt : Int) : Unit × Db :=
  ((), { db with
          plans := db.plans.map (fun p =>
            if p.id == planId then
              { p with name := name, monthlyPrice := monthlyPrice,
                       yearlyPrice := yearlyPrice, updatedAt := some updatedAt }
            else p) })

/-- The successful payload of `plans.getUpgrade`. -/
structure UpgradeResult where
  currentPlan : Plan
  newPlan : Plan
  daysRemaining : Int
  priceDifference : ℚ
  upgradingPrice : ℚ
  deriving DecidableEq

/-- Milliseconds of one whole day, `24 * 60 * 60 * 1000`. -/
def msPerDay : Int := 24 * 60 * 60 * 1000

/-- The handler of `plans.getUpgrade` (router.ts, lines 21-113), translated
query by query; the final storage state is returned next to the outcome. -/
def getUpgrade (db : Db) (now : Int) (userId teamId planId : Nat) :
    Db × Except TrpcError UpgradeResult :=
  let tq := findTeamById db teamId
  let db1 := tq.2
  match tq.1 with
  | none => (db1, .error ⟨.BAD_REQUEST, "Invalid teamId"⟩)
  | some team =>
    if team.userId ≠ userId then
      (db1, .error ⟨.FORBIDDEN, "You don\x27t have access to the team"⟩)
    else
      let sq := findSubscriptionByTeamId db1 teamId
      let db2 := sq.2
      match sq.1 with
      | none => (db2, .error ⟨.NOT_FOUND, "The team doesn\x27t have subscription"⟩)
      | some subscription =>
        let aq := findActiveActivation db2 subscription.id now
        let db3 := aq.2
        match aq.1 with
        | none => (db3, .error ⟨.BAD_REQUEST, "Subscription not active"⟩)
        | some subscriptionActivation =>
          let nq := findPlanById db3 planId
          let db4 := nq.2
          let cq := findPlanById db4 subscription.planId
          let db5 := cq.2
          match nq.1, cq.1 with
          | some newPlan, some currentPlan =>
            if newPlan.monthlyPrice < currentPlan.monthlyPrice then
              (db5, .error ⟨.BAD_REQUEST,
                "Unable to calculate the price for downgrading plan"⟩)
            else
              let daysRemaining : Int :=
                round (((subscriptionActivation.lastActiveDate - now : Int) : ℚ) /
                  (msPerDay : ℚ))
              let priceDifference : ℚ :=
                newPlan.monthlyPrice - currentPlan.monthlyPrice
              let upgradingPrice : ℚ := priceDifference / 30 * daysRemaining
              (db5, .ok { currentPlan := currentPlan, newPlan := newPlan,
                          daysRemaining := daysRemaining,
                          priceDifference := priceDifference,
                          upgradingPrice := upgradingPrice })
          | _, _ => (db5, .error ⟨.BAD_REQUEST, "Invalid plan"⟩)

/-- The acknowledgement `{ success: true }` returned by create and update. -/
structure Ack where
  success : Bool
  deriving DecidableEq

/-- Model of the optional-chained admin test `userInDb?.isAdmin` of the
write procedures: false exactly when the lookup missed or the flag is unset. -/
def optIsAdmin (u? : Option User) : Bool :=
  match u? with
  | some u => u.isAdmin
  | none => false

/-- The handler of `plans.create` (router.ts, lines 114-149). -/
def create (db : Db) (now : Int) (userId : Nat) (name : String)
    (monthlyPrice yearlyPrice : ℚ) : Db × Except TrpcError Ack :=
  let uq := findUserById db userId
  let db1 := uq.2
  if optIsAdmin uq.1 = false then
    (db1, .error ⟨.FORBIDDEN, "Only admin allowed to access"⟩)
  else
    let iq := insertPlan db1 name monthlyPrice yearlyPrice now
    (iq.2, .ok { success := true })

/-- The handler of `plans.update` (router.ts, lines 150-185). -/
def update (db : Db) (now : Int) (userId : Nat) (planId : Nat) (name : String)
    (monthlyPrice yearlyPrice : ℚ) : Db × Except TrpcError Ack :=
  let uq := findUserById db userId
  let db1 := uq.2
  if optIsAdmin uq.1 = false then
    (db1, .error ⟨.FORBIDDEN, "Only admin allowed to access"⟩)
  else
    let wq := updatePlanById db1 planId name monthlyPrice yearlyPrice now
    (wq.2, .ok { success := true })

/-- The outcome of `db.query.plans.findMany()` inside `plans.get`: either
the rows in storage order or a storage failure. -/
inductive FindManyOutcome where
  | ok (rows : List Plan)
  | failure (error : String)
  deriving DecidableEq

/-- Model of `db.query.plans.findMany()` under an ambient fault: succeeds
with the stored rows unless storage fails. -/
def plansFindMany (db : Db) (fault : Option String) : FindManyOutcome :=
  match fault with
  | none => .ok db.plans
  | some e => .failure e

/-- The handler of `plans.get` (router.ts, lines 12-20): try/catch around
`findMany`, degrading a storage failure to the empty list.  The handler is a
total function into `List Plan`, so no error ever reaches the caller. -/
def plansGet (db : Db) (fault : Option String) : List Plan :=
  match plansFindMany db fault with
  | .ok rows => rows
  | .failure _ => []

/-- Concrete test fixtures, mirroring the scenario of
`src/tests/plans/plans.test.ts`. -/
def planPlus : Plan := ⟨1, "Plus", 59, 599, some 0, none⟩

/-- The 199-per-month plan of the test scenario. -/
def planPremium : Plan := ⟨2, "Premium", 199, 1999, some 0, none⟩

/-- The 29-per-month plan of the test scenario. -/
def planBasic : Plan := ⟨3, "Basic", 29, 279, some 0, none⟩

/-- The team of the test scenario, owned by user 7. -/
def teamSuper : Team := ⟨1, 7, "SuperTeam"⟩

/-- The monthly subscription of `teamSuper` on `planPlus`. -/
def subSuper : Subscription := ⟨1, 1, 1, "monthly", 0⟩

/-- An activation whose `lastActiveDate` is fourteen days (in ms) after 0. -/
def actSuper : SubscriptionActivation := ⟨1, 0, 1209600000⟩

/-- A storage state carrying the whole test scenario. -/
def dbScenario : Db :=
  ⟨[planPlus, planPremium, planBasic], [teamSuper], [subSuper], [actSuper],
   [⟨7, true⟩], 4⟩

/-- The scenario storage without any subscription or activation. -/
def dbNoSub : Db :=
  ⟨[planPlus, planPremium, planBasic], [teamSuper], [], [], [⟨7, true⟩], 4⟩

/-- An otherwise empty storage holding one admin user. -/
def dbAdmin : Db := ⟨[], [], [], [], [⟨1, true⟩], 1⟩

/-- An otherwise empty storage holding one non-admin user. -/
def dbNonAdmin : Db := ⟨[], [], [], [], [⟨1, false⟩], 1⟩

/-- An empty storage with no user records at all. -/
def dbNoUsers : Db := ⟨[], [], [], [], [], 1⟩

/-- Rounding a nonnegative rational yields a nonnegative integer. -/
theorem round_nonneg_of_nonneg (q : ℚ) (h : 0 ≤ q) : 0 ≤ round q := by
  rw [round_eq]
  exact Int.floor_nonneg.2 (by linarith)

/-- C1: whenever every validation step of `getUpgrade` passes (the team
resolves and is owned by the requester, a subscription and an activation
with `lastActiveDate >= now` resolve, both plans resolve, and the new plan
is not cheaper), the result is exactly `daysRemaining = round((lastActiveDate
- now) / 86400000)` under standard rounding, `priceDifference =
newPlan.monthlyPrice - currentPlan.monthlyPrice`, `upgradingPrice =
(priceDifference / 30) * daysRemaining`, with the full plan records. -/
theorem getUpgrade_quote (db : Db) (now : Int) (userId teamId planId : Nat)
    (team : Team) (subscription : Subscription) (act : SubscriptionActivation)
    (newPlan currentPlan : Plan)
    (hteam : db.teams.find? (fun t => t.id == teamId) = some team)
    (hown : team.userId = userId)
    (hsub : db.subscriptions.find? (fun s => s.teamId == teamId) = some subscription)
    (hact : db.subscriptionActivations.find?
      (fun a => a.subscriptionId == subscription.id && now ≤ a.lastActiveDate) = some act)
    (hnew : db.plans.find? (fun p => p.id == planId) = some newPlan)
    (hcur : db.plans.find? (fun p => p.id == subscription.planId) = some currentPlan)
    (hprice : currentPlan.monthlyPrice ≤ newPlan.monthlyPrice) :
    (getUpgrade db now userId teamId planId).2 = .ok
      { currentPlan := currentPlan, newPlan := newPlan,
        daysRemaining := round (((act.lastActiveDate - now : Int) : ℚ) / 86400000),
        priceDifference := newPlan.monthlyPrice - currentPlan.monthlyPrice,
        upgradingPrice := (newPlan.monthlyPrice - currentPlan.monthlyPrice) / 30 *
          (round (((act.lastActiveDate - now : Int) : ℚ) / 86400000) : ℚ) } := by
  unfold getUpgrade findTeamById findSubscriptionByTeamId findActiveActivation findPlanById
  simp only [hteam, hown, hsub, hact, hnew, hcur, ne_eq, not_true_eq_false, if_false,
    not_lt.mpr hprice, msPerDay]
  norm_num

/-- Witness for C1 on the test scenario: team 1 owned by user 7, activation
fourteen days out, upgrading from the 59 plan to the 199 plan. -/
theorem getUpgrade_quote_witness :
    (getUpgrade dbScenario 0 7 1 2).2 = .ok
      { currentPlan := planPlus, newPlan := planPremium,
        daysRemaining := round (((actSuper.lastActiveDate - 0 : Int) : ℚ) / 86400000),
        priceDifference := planPremium.monthlyPrice - planPlus.monthlyPrice,
        upgradingPrice := (planPremium.monthlyPrice - planPlus.monthlyPrice) / 30 *
          (round (((actSuper.lastActiveDate - 0 : Int) : ℚ) / 86400000) : ℚ) } :=
  getUpgrade_quote dbScenario 0 7 1 2 teamSuper subSuper actSuper planPremium planPlus
    rfl rfl rfl rfl rfl rfl (by norm_num [planPlus, planPremium])

/-- C2: the validation pipeline of `getUpgrade` short-circuits strictly in
order, each step with its specific error: an unknown teamId fails with
BAD_REQUEST "Invalid teamId" before any other check; an existing team owned
by a different user fails with FORBIDDEN regardless of subscription,
activation, or plan state; an owned team without subscription fails with
NOT_FOUND regardless of the remaining state; a subscription with no
activation at `lastActiveDate >= now` fails with BAD_REQUEST "Subscription
not active" before any plan is resolved; a missing new or current plan fails
with BAD_REQUEST "Invalid plan" before the downgrade guard; and only then a
strictly cheaper new plan fails with the downgrade error. -/
theorem getUpgrade_check_order (db : Db) (now : Int) (userId teamId planId : Nat) :
    (db.teams.find? (fun t => t.id == teamId) = none →
      (getUpgrade db now userId teamId planId).2 =
        .error ⟨.BAD_REQUEST, "Invalid teamId"⟩) ∧
    (∀ team, db.teams.find? (fun t => t.id == teamId) = some team →
      team.userId ≠ userId →
      (getUpgrade db now userId teamId planId).2 =
        .error ⟨.FORBIDDEN, "You don\x27t have access to the team"⟩) ∧
    (∀ team, db.teams.find? (fun t => t.id == teamId) = some team →
      team.userId = userId →
      db.subscriptions.find? (fun s => s.teamId == teamId) = none →
      (getUpgrade db now userId teamId planId).2 =
        .error ⟨.NOT_FOUND, "The team doesn\x27t have subscription"⟩) ∧
    (∀ team subscription,
      db.teams.find? (fun t => t.id == teamId) = some team →
      team.userId = userId →
      db.subscriptions.find? (fun s => s.teamId == teamId) = some subscription →
      db.subscriptionActivations.find?
        (fun a => a.subscriptionId == subscription.id && now ≤ a.lastActiveDate) = none →
      (getUpgrade db now userId teamId planId).2 =
        .error ⟨.BAD_REQUEST, "Subscription not active"⟩) ∧
    (∀ team subscription act,
      db.teams.find? (fun t => t.id == teamId) = some team →
      team.userId = userId →
      db.subscriptions.find? (fun s => s.teamId == teamId) = some subscription →
      db.subscriptionActivations.find?
        (fun a => a.subscriptionId == subscription.id && now ≤ a.lastActiveDate) = some act →
      (db.plans.find? (fun p => p.id == planId) = none ∨
       db.plans.find? (fun p => p.id == subscription.planId) = none) →
      (getUpgrade db now userId teamId planId).2 =
        .error ⟨.BAD_REQUEST, "Invalid plan"⟩) ∧
    (∀ team subscription act newPlan currentPlan,
      db.teams.find? (fun t => t.id == teamId) = some team →
      team.userId = userId →
      db.subscriptions.find? (fun s => s.teamId == teamId) = some subscription →
      db.subscriptionActivations.find?
        (fun a => a.subscriptionId == subscription.id && now ≤ a.lastActiveDate) = some act →
      db.plans.find? (fun p => p.id == planId) = some newPlan →
      db.plans.find? (fun p => p.id == subscription.planId) = some currentPlan →
      newPlan.monthlyPrice < currentPlan.monthlyPrice →
      (getUpgrade db now userId teamId planId).2 =
        .error ⟨.BAD_REQUEST, "Unable to calculate the price for downgrading plan"⟩) := by
  refine ⟨?_, ?_, ?_, ?_, ?_, ?_⟩
  · intro h
    unfold getUpgrade findTeamById
    simp only [h]
  · intro team hteam hne
    unfold getUpgrade findTeamById
    simp only [hteam, hne, ne_eq, not_false_eq_true, if_true]
  · intro team hteam hown hsub
    unfold getUpgrade findTeamById findSubscriptionByTeamId
    simp only [hteam, hown, hsub, ne_eq, not_true_eq_false, if_false]
  · intro team subscription hteam hown hsub hact
    unfold getUpgrade findTeamById findSubscriptionByTeamId findActiveActivation
    simp only [hteam, hown, hsub, hact, ne_eq, not_true_eq_false, if_false]
  · intro team subscription act hteam hown hsub hact hplan
    unfold getUpgrade findTeamById findSubscriptionByTeamId findActiveActivation findPlanById
    rcases hplan with hnew | hcur
    · rcases hc : db.plans.find? (fun p => p.id == subscription.planId) with _ | p <;>
        simp only [hteam, hown, hsub, hact, hnew, hc, ne_eq, not_true_eq_false, if_false]
    · rcases hn : db.plans.find? (fun p => p.id == planId) with _ | p <;>
        simp only [hteam, hown, hsub, hact, hcur, hn, ne_eq, not_true_eq_false, if_false]
  · intro team subscription act newPlan currentPlan hteam hown hsub hact hnew hcur hlt
    unfold getUpgrade findTeamById findSubscriptionByTeamId findActiveActivation findPlanById
    simp only [hteam, hown, hsub, hact, hnew, hcur, ne_eq, not_true_eq_false, if_false, hlt,
      if_true]

/-- Witness for C2: on concrete storage, an unknown team id, a foreign
requester, a team without subscription, an expired activation, an unknown
plan id, and a cheaper target plan each produce the specific error of their
pipeline step. -/
theorem getUpgrade_check_order_witness :
    (getUpgrade dbNoSub 0 7 99 1).2 = .error ⟨.BAD_REQUEST, "Invalid teamId"⟩ ∧
    (getUpgrade dbNoSub 0 8 1 1).2 =
      .error ⟨.FORBIDDEN, "You don\x27t have access to the team"⟩ ∧
    (getUpgrade dbNoSub 0 7 1 1).2 =
      .error ⟨.NOT_FOUND, "The team doesn\x27t have subscription"⟩ ∧
    (getUpgrade dbScenario 1300000000 7 1 2).2 =
      .error ⟨.BAD_REQUEST, "Subscription not active"⟩ ∧
    (getUpgrade dbScenario 0 7 1 99).2 = .error ⟨.BAD_REQUEST, "Invalid plan"⟩ ∧
    (getUpgrade dbScenario 0 7 1 3).2 =
      .error ⟨.BAD_REQUEST, "Unable to calculate the price for downgrading plan"⟩ :=
  ⟨(getUpgrade_check_order dbNoSub 0 7 99 1).1 rfl,
   (getUpgrade_check_order dbNoSub 0 8 1 1).2.1 teamSuper rfl (by decide),
   (getUpgrade_check_order dbNoSub 0 7 1 1).2.2.1 teamSuper rfl rfl rfl,
   (getUpgrade_check_order dbScenario 1300000000 7 1 2).2.2.2.1 teamSuper subSuper
     rfl rfl rfl rfl,
   (getUpgrade_check_order dbScenario 0 7 1 99).2.2.2.2.1 teamSuper subSuper actSuper
     rfl rfl rfl rfl (Or.inl rfl),
   (getUpgrade_check_order dbScenario 0 7 1 3).2.2.2.2.2 teamSuper subSuper actSuper
     planBasic planPlus rfl rfl rfl rfl rfl rfl (by norm_num [planBasic, planPlus])⟩

/-- C3: at the downgrade guard, a strictly cheaper new plan fails with
BAD_REQUEST "Unable to calculate the price for downgrading plan", while an
equal monthly price is not rejected and yields a quote with
`priceDifference = 0` (hence `upgradingPrice = 0`). -/
theorem getUpgrade_downgrade (db : Db) (now : Int) (userId teamId planId : Nat)
    (team : Team) (subscription : Subscription) (act : SubscriptionActivation)
    (newPlan currentPlan : Plan)
    (hteam : db.teams.find? (fun t => t.id == teamId) = some team)
    (hown : team.userId = userId)
    (hsub : db.subscriptions.find? (fun s => s.teamId == teamId) = some subscription)
    (hact : db.subscriptionActivations.find?
      (fun a => a.subscriptionId == subscription.id && now ≤ a.lastActiveDate) = some act)
    (hnew : db.plans.find? (fun p => p.id == planId) = some newPlan)
    (hcur : db.plans.find? (fun p => p.id == subscription.planId) = some currentPlan) :
    (newPlan.monthlyPrice < currentPlan.monthlyPrice →
      (getUpgrade db now userId teamId planId).2 =
        .error ⟨.BAD_REQUEST, "Unable to calculate the price for downgrading plan"⟩) ∧
    (newPlan.monthlyPrice = currentPlan.monthlyPrice →
      (getUpgrade db now userId teamId planId).2 = .ok
        { currentPlan := currentPlan, newPlan := newPlan,
          daysRemaining := round (((act.lastActiveDate - now : Int) : ℚ) / 86400000),
          priceDifference := 0, upgradingPrice := 0 }) := by
  constructor
  · intro hlt
    unfold getUpgrade findTeamById findSubscriptionByTeamId findActiveActivation findPlanById
    simp only [hteam, hown, hsub, hact, hnew, hcur, ne_eq, not_true_eq_false, if_false, hlt,
      if_true]
  · intro heqp
    unfold getUpgrade findTeamById findSubscriptionByTeamId findActiveActivation findPlanById
    simp only [hteam, hown, hsub, hact, hnew, hcur, ne_eq, not_true_eq_false, if_false,
      heqp, lt_self_iff_false, msPerDay]
    norm_num

/-- Witness for C3: downgrading from the 59 plan to the 29 plan is rejected,
while re-quoting the 59 plan itself (equal price) succeeds with a zero
price difference. -/
theorem getUpgrade_downgrade_witness :
    (getUpgrade dbScenario 0 7 1 3).2 =
      .error ⟨.BAD_REQUEST, "Unable to calculate the price for downgrading plan"⟩ ∧
    (getUpgrade dbScenario 0 7 1 1).2 = .ok
      { currentPlan := planPlus, newPlan := planPlus,
        daysRemaining := round (((actSuper.lastActiveDate - 0 : Int) : ℚ) / 86400000),
        priceDifference := 0, upgradingPrice := 0 } :=
  ⟨(getUpgrade_downgrade dbScenario 0 7 1 3 teamSuper subSuper actSuper planBasic planPlus
      rfl rfl rfl rfl rfl rfl).1 (by norm_num [planBasic, planPlus]),
   (getUpgrade_downgrade dbScenario 0 7 1 1 teamSuper subSuper actSuper planPlus planPlus
      rfl rfl rfl rfl rfl rfl).2 rfl⟩

/-- C4: for a caller whose user record is not an admin, create and update
fail with FORBIDDEN "Only admin allowed to access" and leave storage
unchanged; for an admin caller, create appends a plan row equal to the input
with a creation timestamp, update rewrites the rows matched by id with an
update timestamp, and both return only `{ success := true }` without echoing
the record. -/
theorem plans_write_admin_gate (db : Db) (now : Int) (userId planId : Nat)
    (name : String) (monthlyPrice yearlyPrice : ℚ) :
    (∀ u, db.users.find? (fun x => x.id == userId) = some u → u.isAdmin = false →
      create db now userId name monthlyPrice yearlyPrice =
        (db, .error ⟨.FORBIDDEN, "Only admin allowed to access"⟩) ∧
      update db now userId planId name monthlyPrice yearlyPrice =
        (db, .error ⟨.FORBIDDEN, "Only admin allowed to access"⟩)) ∧
    (∀ u, db.users.find? (fun x => x.id == userId) = some u → u.isAdmin = true →
      create db now userId name monthlyPrice yearlyPrice =
        ({ db with
            plans := db.plans ++
              [{ id := db.nextPlanId, name := name, monthlyPrice := monthlyPrice,
                 yearlyPrice := yearlyPrice, createdAt := some now, updatedAt := none }],
            nextPlanId := db.nextPlanId + 1 },
         .ok { success := true }) ∧
      update db now userId planId name monthlyPrice yearlyPrice =
        ({ db with
            plans := db.plans.map (fun p =>
              if p.id == planId then
                { p with name := name, monthlyPrice := monthlyPrice,
                         yearlyPrice := yearlyPrice, updatedAt := some now }
              else p) },
         .ok { success := true })) := by
  constructor
  · intro u hu hadm
    unfold create update findUserById optIsAdmin
    simp only [hu, hadm]
    exact ⟨rfl, rfl⟩
  · intro u hu hadm
    unfold create update findUserById optIsAdmin insertPlan updatePlanById
    simp only [hu, hadm]
    exact ⟨rfl, rfl⟩

/-- Witness for C4: a non-admin caller is rejected with storage unchanged,
and an admin caller's create stores exactly the input row. -/
theorem plans_write_admin_gate_witness :
    create dbNonAdmin 0 1 "Starter" 19 179 =
      (dbNonAdmin, .error ⟨.FORBIDDEN, "Only admin allowed to access"⟩) ∧
    (create dbAdmin 0 1 "Starter" 19 179).1.plans =
      [{ id := 1, name := "Starter", monthlyPrice := 19, yearlyPrice := 179,
         createdAt := some 0, updatedAt := none }] := by
  refine ⟨((plans_write_admin_gate dbNonAdmin 0 1 2 "Starter" 19 179).1 ⟨1, false⟩ rfl rfl).1, ?_⟩
  rw [((plans_write_admin_gate dbAdmin 0 1 2 "Starter" 19 179).2 ⟨1, true⟩ rfl rfl).1]
  rfl

/-- C5: once the team resolves, is owned, and has a subscription,
`getUpgrade` fails with BAD_REQUEST "Subscription not active" exactly when
no activation record of that subscription has `lastActiveDate >= now`;
activity is recomputed from the activation rows of the storage state at call
time, there is no stored status. -/
theorem getUpgrade_not_active_iff (db : Db) (now : Int) (userId teamId planId : Nat)
    (team : Team) (subscription : Subscription)
    (hteam : db.teams.find? (fun t => t.id == teamId) = some team)
    (hown : team.userId = userId)
    (hsub : db.subscriptions.find? (fun s => s.teamId == teamId) = some subscription) :
    ((getUpgrade db now userId teamId planId).2 =
        .error ⟨.BAD_REQUEST, "Subscription not active"⟩ ↔
      ¬ ∃ a ∈ db.subscriptionActivations,
          a.subscriptionId = subscription.id ∧ now ≤ a.lastActiveDate) := by
  unfold getUpgrade findTeamById findSubscriptionByTeamId findActiveActivation findPlanById
  simp only [hteam, hown, hsub, ne_eq, not_true_eq_false, if_false]
  rcases hfind : db.subscriptionActivations.find?
      (fun a => a.subscriptionId == subscription.id && now ≤ a.lastActiveDate) with _ | act
  · simp only [hfind]
    rw [List.find?_eq_none] at hfind
    constructor
    · rintro - ⟨a, ha, h1, h2⟩
      have := hfind a ha
      simp [h1, h2] at this
    · intro _; trivial
  · simp only [hfind]
    have hmem := List.mem_of_find?_eq_some hfind
    have hpred := List.find?_some hfind
    simp only [Bool.and_eq_true, beq_iff_eq, decide_eq_true_eq] at hpred
    constructor
    · intro h
      exfalso
      split at h
      · split at h <;> simp at h
      · simp at h
    · intro h
      exact absurd ⟨act, hmem, hpred.1, hpred.2⟩ h

/-- Witness for C5: at an instant beyond the only activation's
`lastActiveDate`, the scenario call fails with "Subscription not active". -/
theorem getUpgrade_not_active_iff_witness :
    (getUpgrade dbScenario 2000000000 7 1 2).2 =
      .error ⟨.BAD_REQUEST, "Subscription not active"⟩ :=
  (getUpgrade_not_active_iff dbScenario 2000000000 7 1 2 teamSuper subSuper
      rfl rfl rfl).mpr (by decide)

/-- C6: the public list operation returns exactly the persisted plan rows in
storage order when storage succeeds, and the empty list on every storage
failure; being a total function into `List Plan`, it never throws. -/
theorem plansGet_spec (db : Db) :
    plansGet db none = db.plans ∧ ∀ e, plansGet db (some e) = [] :=
  ⟨rfl, fun _ => rfl⟩

/-- Counterexample to C7: create accepts the empty string as a plan name,
and two creates with the same name leave two stored rows named "Starter",
so neither non-emptiness nor uniqueness of names holds at the router. -/
theorem plans_name_unique_cex :
    (create dbAdmin 0 1 "" 19 179).2 = .ok { success := true } ∧
    ((create (create dbAdmin 0 1 "Starter" 19 179).1 0 1 "Starter" 19 179).1.plans.map
        Plan.name) = ["Starter", "Starter"] :=
  ⟨rfl, rfl⟩

/-- C7 as amended: create accepts any string name, the empty string
included (the input schema does not require non-emptiness), and appends the
row regardless of names already stored, so the router enforces no name
uniqueness. -/
theorem plans_create_any_name (db : Db) (now : Int) (userId : Nat) (u : User)
    (name : String) (monthlyPrice yearlyPrice : ℚ)
    (hu : db.users.find? (fun x => x.id == userId) = some u)
    (hadm : u.isAdmin = true) :
    (create db now userId name monthlyPrice yearlyPrice).2 = .ok { success := true } ∧
    (create db now userId name monthlyPrice yearlyPrice).1.plans =
      db.plans ++ [{ id := db.nextPlanId, name := name, monthlyPrice := monthlyPrice,
                     yearlyPrice := yearlyPrice, createdAt := some now,
                     updatedAt := none }] := by
  unfold create findUserById optIsAdmin insertPlan
  simp only [hu, hadm]
  exact ⟨rfl, rfl⟩

/-- Witness for the amended C7: an admin create with the empty name
succeeds. -/
theorem plans_create_any_name_witness :
    (create dbAdmin 0 1 "" 19 179).2 = .ok { success := true } :=
  (plans_create_any_name dbAdmin 0 1 ⟨1, true⟩ "" 19 179 rfl rfl).1

/-- C8: `getUpgrade` has no side effects: on every input and storage state,
whether it succeeds or fails, the storage state it returns is the one it was
given; it only issues reads. -/
theorem getUpgrade_frame (db : Db) (now : Int) (userId teamId planId : Nat) :
    (getUpgrade db now userId teamId planId).1 = db := by
  unfold getUpgrade findTeamById findSubscriptionByTeamId findActiveActivation findPlanById
  dsimp only
  repeat first | rfl | split

/-- C9: whenever `getUpgrade` succeeds, `daysRemaining`, `priceDifference`
and `upgradingPrice` are all nonnegative: the activation bound makes the
rounded day count nonnegative, the downgrade guard makes the price
difference nonnegative, and their product over 30 follows. -/
theorem getUpgrade_nonneg (db : Db) (now : Int) (userId teamId planId : Nat)
    (r : UpgradeResult)
    (h : (getUpgrade db now userId teamId planId).2 = .ok r) :
    0 ≤ r.daysRemaining ∧ 0 ≤ r.priceDifference ∧ 0 ≤ r.upgradingPrice := by
  unfold getUpgrade findTeamById findSubscriptionByTeamId findActiveActivation findPlanById at h
  dsimp only at h
  split at h
  · exact absurd h (by simp)
  · split at h
    · exact absurd h (by simp)
    · split at h
      · exact absurd h (by simp)
      · split at h
        · exact absurd h (by simp)
        · rename_i act hactfind
          split at h
          · rename_i newPlan currentPlan hnpfind hcpfind
            split at h
            · exact absurd h (by simp)
            · rename_i hnotlt
              have hr := (Except.ok.inj h).symm
              have hpred := List.find?_some hactfind
              simp only [Bool.and_eq_true, beq_iff_eq, decide_eq_true_eq] at hpred
              have hdays : (0 : Int) ≤
                  round (((act.lastActiveDate - now : Int) : ℚ) / (msPerDay : ℚ)) := by
                apply round_nonneg_of_nonneg
                apply div_nonneg
                · have : (0 : Int) ≤ act.lastActiveDate - now := by omega
                  exact_mod_cast this
                · norm_num [msPerDay]
              have hpd : (0 : ℚ) ≤ newPlan.monthlyPrice - currentPlan.monthlyPrice := by
                linarith [not_lt.mp hnotlt]
              subst hr
              refine ⟨hdays, hpd, ?_⟩
              apply mul_nonneg (by linarith) ?_
              exact_mod_cast hdays
          · exact absurd h (by simp)

/-- Witness for C9: the successful scenario quote has nonnegative day
count, price difference, and upgrading price. -/
theorem getUpgrade_nonneg_witness :
    0 ≤ round (((actSuper.lastActiveDate - 0 : Int) : ℚ) / (msPerDay : ℚ)) ∧
    0 ≤ (140 : ℚ) ∧
    0 ≤ (140 : ℚ) / 30 *
      (round (((actSuper.lastActiveDate - 0 : Int) : ℚ) / (msPerDay : ℚ)) : ℚ) :=
  getUpgrade_nonneg dbScenario 0 7 1 2
    { currentPlan := planPlus, newPlan := planPremium,
      daysRemaining := round (((actSuper.lastActiveDate - 0 : Int) : ℚ) / (msPerDay : ℚ)),
      priceDifference := 140,
      upgradingPrice := 140 / 30 *
        (round (((actSuper.lastActiveDate - 0 : Int) : ℚ) / (msPerDay : ℚ)) : ℚ) }
    (by
      unfold getUpgrade findTeamById findSubscriptionByTeamId findActiveActivation findPlanById
      have h1 : dbScenario.teams.find? (fun t => t.id == 1) = some teamSuper := rfl
      have h2 : dbScenario.subscriptions.find? (fun s => s.teamId == 1) = some subSuper := rfl
      have h3 : dbScenario.subscriptionActivations.find?
          (fun a => a.subscriptionId == subSuper.id && (0 : Int) ≤ a.lastActiveDate) =
            some actSuper := rfl
      have h4 : dbScenario.plans.find? (fun p => p.id == 2) = some planPremium := rfl
      have h5 : dbScenario.plans.find? (fun p => p.id == subSuper.planId) = some planPlus := rfl
      simp only [h1, h2, h3, h4, h5]
      norm_num [planPremium, planPlus, teamSuper])

/-- C10: a caller whose user id has no user record at all is rejected by
create and update with the same FORBIDDEN "Only admin allowed to access"
(the optional-chained admin flag of a missing record is falsy), not with a
not-found or internal error, and storage is unchanged. -/
theorem plans_write_missing_user (db : Db) (now : Int) (userId planId : Nat)
    (name : String) (monthlyPrice yearlyPrice : ℚ)
    (h : db.users.find? (fun x => x.id == userId) = none) :
    create db now userId name monthlyPrice yearlyPrice =
      (db, .error ⟨.FORBIDDEN, "Only admin allowed to access"⟩) ∧
    update db now userId planId name monthlyPrice yearlyPrice =
      (db, .error ⟨.FORBIDDEN, "Only admin allowed to access"⟩) := by
  unfold create update findUserById optIsAdmin
  simp only [h]
  exact ⟨rfl, rfl⟩

/-- Witness for C10: on a storage state with no users, user 5's create is
rejected with FORBIDDEN and the state unchanged. -/
theorem plans_write_missing_user_witness :
    dbNoUsers.users.find? (fun x => x.id == 5) = none ∧
    create dbNoUsers 0 5 "Starter" 19 179 =
      (dbNoUsers, .error ⟨.FORBIDDEN, "Only admin allowed to access"⟩) :=
  ⟨rfl, (plans_write_missing_user dbNoUsers 0 5 2 "Starter" 19 179 rfl).1⟩

end PlansRouter
